import Mathlib

/-!
Shallow embedding of qualysapi's request-normalization engine
(`qualysapi/connector.py`, class QGConnector) and proofs checking the
specification's claims against it.

Python strings are modelled as Lean `String` (byte strings restricted to
their character content); Python `int` as `Int`; fallible Python code as
`Except PyErr`; the connector's mutable `rate_limit_remaining` defaultdict
as an explicit association list threaded through the functions that touch
it.  Each definition below is translated from the named source function.
-/

/-- Whether the first list is an initial segment of the second
(helper for the Python `startswith` / `in` string operations). -/
def listLeads : List Char → List Char → Bool
  | [], _ => true
  | _ :: _, [] => false
  | a :: as, b :: bs => a == b && listLeads as bs

/-- Whether the pattern occurs as a contiguous run somewhere in the list
(helper for Python's `pat in s` substring test). -/
def listHasRun (pat : List Char) : List Char → Bool
  | [] => listLeads pat []
  | c :: t => listLeads pat (c :: t) || listHasRun pat t

/-- Python `s.startswith(p)`. -/
def pyStartsWith (s p : String) : Bool := listLeads p.data s.data

/-- Python `s.endswith(p)`, computed on reversed character lists. -/
def pyEndsWith (s p : String) : Bool := listLeads p.data.reverse s.data.reverse

/-- Python `pat in s` (substring containment). -/
def strContains (s pat : String) : Bool := listHasRun pat.data s.data

/-- Python `s.lstrip(c)` for a one-character strip set. -/
def pyLstripChar (s : String) (c : Char) : String :=
  ⟨s.data.dropWhile (fun x => x == c)⟩

/-- Python `s.rstrip(c)` for a one-character strip set. -/
def pyRstripChar (s : String) (c : Char) : String :=
  ⟨(s.data.reverse.dropWhile (fun x => x == c)).reverse⟩

/-- ASCII lowercasing of one character (Python 2 byte-string `lower`). -/
def pyLowerChar (c : Char) : Char :=
  if 'A' ≤ c ∧ c ≤ 'Z' then Char.ofNat (c.toNat + 32) else c

/-- Python `s.lower()` on a byte string (ASCII). -/
def pyLower (s : String) : String := ⟨s.data.map pyLowerChar⟩

/-- Python `c.isdigit()` for ASCII byte strings. -/
def pyIsDigitChar (c : Char) : Bool := '0' ≤ c && c ≤ '9'

/-- The whitespace characters Python's `int(str)` strips. -/
def pyIsSpaceChar (c : Char) : Bool :=
  c == ' ' || c == '\t' || c == '\n' || c == '\r' || c == '\x0b' || c == '\x0c'

/-- Value of a run of decimal digits. -/
def digitsToNat (l : List Char) : Nat :=
  l.foldl (fun a c => a * 10 + (c.toNat - '0'.toNat)) 0

/-- Digit-run parser used by `pyInt`; `none` models Python's ValueError. -/
def pyIntCore (ds : List Char) : Option Int :=
  if ds ≠ [] ∧ ds.all pyIsDigitChar then some ((digitsToNat ds : Nat) : Int) else none

/-- Python 2 `int(s)` on a byte string: strip surrounding whitespace, allow
one sign, then require a nonempty digit run; `none` models ValueError. -/
def pyInt (s : String) : Option Int :=
  let t := ((s.data.dropWhile pyIsSpaceChar).reverse.dropWhile pyIsSpaceChar).reverse
  match t with
  | '+' :: ds => pyIntCore ds
  | '-' :: ds => (pyIntCore ds).map (fun n => -n)
  | ds => pyIntCore ds

/-- The values `api_version` takes in the source: the ints returned by
`int()`, the strings 'am' and 'was', and the `False` returned by
`which_api_version` when no pattern matches. -/
inductive ApiVersion where
  | num : Int → ApiVersion
  | am : ApiVersion
  | was : ApiVersion
  | boolFalse : ApiVersion
deriving DecidableEq

/-- The Python exceptions the modelled code can raise. -/
inductive PyErr where
  | indexError : PyErr
  | valueError : PyErr
  | unknownGeneration : String → PyErr
  | remoteRequestError : Int → String → PyErr
deriving DecidableEq

deriving instance DecidableEq for Except

/-- QGConnector.which_api_version: infer the API generation from the shape
of the call; returns `boolFalse` (Python `False`) when nothing matches. -/
def which_api_version (api_call : String) : ApiVersion :=
  if pyEndsWith api_call ".php" then .num 1
  else if pyStartsWith api_call "api/2.0/" then .num 2
  else if strContains api_call "/am/" then .am
  else if strContains api_call "/was/" then .was
  else .boolFalse

/-- The Asset Management synonym hints of `format_api_version`. -/
def hintSynAm : List String := ["asset management", "assets", "tag", "tagging", "tags"]

/-- The WAS synonym hints of `format_api_version`. -/
def hintSynWas : List String := ["webapp", "web application scanning", "webapp scanning"]

/-- Tail of QGConnector.format_api_version after the lowercase/v-strip
steps: synonym mapping, then `int()` conversion. -/
def classifyHint (v : String) : Except PyErr ApiVersion :=
  if hintSynAm.contains v then .ok .am
  else if hintSynWas.contains v then .ok .was
  else if v = "pol" ∨ v = "pc" then .ok (.num 2)
  else
    match pyInt v with
    | some n => .ok (.num n)
    | none => .error .valueError

/-- QGConnector.format_api_version on a string hint: lowercase, strip a
leading 'v' when `api_version[1]` is a digit (the index accesses raise
IndexError on the empty string and on the one-character string "v"),
then classify. -/
def format_api_version (h : String) : Except PyErr ApiVersion :=
  let v := pyLower h
  match v.data with
  | [] => .error .indexError
  | c0 :: rest =>
    if c0 = 'v' then
      match rest with
      | [] => .error .indexError
      | c1 :: _ => if pyIsDigitChar c1 then classifyHint ⟨rest⟩ else classifyHint v
    else classifyHint v

/-- The total v-strip described by claim C7: remove a leading 'v' exactly
when it is followed by a digit. -/
def claimVstrip (v : String) : String :=
  match v.data with
  | c0 :: c1 :: rest => if c0 = 'v' ∧ pyIsDigitChar c1 then ⟨c1 :: rest⟩ else v
  | _ => v

/-- Stated from the claim's words (C7), for comparison with the source:
case-fold the hint, strip a leading 'v' when followed by a digit (a total
operation in this reading), map synonyms, otherwise parse an integer,
failing with UnrecognizedVersion (modelled by `PyErr.valueError`) when the
remainder is not a digit string. -/
def claimC7Classify (h : String) : Except PyErr ApiVersion :=
  classifyHint (claimVstrip (pyLower h))

/-- Python `repr`-via-`"%s" %` formatting of the api_version values, as used
in the `url_api_version` error message. -/
def pyReprVersion : ApiVersion → String
  | .num n => toString n
  | .am => "am"
  | .was => "was"
  | .boolFalse => "False"

/-- QGConnector.url_api_version: base URL per generation; any other value
raises the "Unknown QualysGuard API Version Number" Exception. -/
def url_api_version (server : String) (v : ApiVersion) : Except PyErr String :=
  if v = .num 1 then .ok ("https://" ++ server ++ "/msp/")
  else if v = .num 2 then .ok ("https://" ++ server ++ "/")
  else if v = .was then .ok ("https://" ++ server ++ "/qps/rest/3.0/")
  else if v = .am then .ok ("https://" ++ server ++ "/qps/rest/1.0/")
  else .error (.unknownGeneration ("Unknown QualysGuard API Version Number (" ++ pyReprVersion v ++ ")"))

/-- The payload values the source passes around: a raw byte string, the
dict of key to list-of-values produced by `urlparse.parse_qs` (or supplied
by the caller), or an lxml element, modelled by its `tostring`
serialization together with its child count (which decides its Python
truthiness). -/
inductive PyData where
  | str : String → PyData
  | qdict : List (String × List String) → PyData
  | xml : String → Nat → PyData
deriving DecidableEq

/-- Python truthiness of the optional `data` argument (`if not data:` and
`if data:` in the source): None, the empty string, the empty dict and a
childless lxml element are all falsy. -/
def pyTruthy : Option PyData → Bool
  | none => false
  | some (.str s) => !(s == "")
  | some (.qdict d) => !d.isEmpty
  | some (.xml _ kids) => !(kids == 0)

/-- The four endpoint sets of `qualysapi.api_methods.api_methods` that
`format_http_method` consults.  The data file is not part of src/, so the
sets are carried abstractly (the registry is static configuration). -/
structure ApiMethods where
  v1post : List String
  wasGet : List String
  wasNoDataGet : List String
  amGet : List String
deriving DecidableEq

/-- QGConnector.format_http_method: verb selection per generation.  Note
the Asset Management rule is the final catch-all `else` branch, and the
WAS branch tests Python truthiness of `data`, not argument presence. -/
def format_http_method (m : ApiMethods) (v : ApiVersion) (api_call : String)
    (data : Option PyData) : String :=
  if v = .num 2 then "post"
  else if v = .num 1 then
    if m.v1post.contains api_call then "post" else "get"
  else if v = .was then
    if m.wasGet.contains api_call then "get"
    else if pyTruthy data = false then
      if m.wasNoDataGet.contains api_call then "get" else "post"
    else "post"
  else
    if m.amGet.contains api_call then "get" else "post"

/-- Python `s.replace(a, b)` for one-character patterns. -/
def pyReplace (s : String) (a b : Char) : String :=
  ⟨s.data.map (fun c => if c = a then b else c)⟩

/-- ASCII hex digit test, as accepted by `urllib.unquote`. -/
def isHexChar (c : Char) : Bool :=
  pyIsDigitChar c || ('a' ≤ c && c ≤ 'f') || ('A' ≤ c && c ≤ 'F')

/-- Numeric value of an ASCII hex digit. -/
def hexVal (c : Char) : Nat :=
  if pyIsDigitChar c then c.toNat - '0'.toNat
  else if 'a' ≤ c && c ≤ 'f' then c.toNat - 'a'.toNat + 10
  else c.toNat - 'A'.toNat + 10

/-- `urllib.unquote` percent-decoding: a '%' followed by two hex digits
becomes the decoded byte; otherwise the '%' is kept literally. -/
def unquoteChars : List Char → List Char
  | [] => []
  | '%' :: a :: b :: rest =>
    if isHexChar a && isHexChar b then
      Char.ofNat (hexVal a * 16 + hexVal b) :: unquoteChars rest
    else '%' :: unquoteChars (a :: b :: rest)
  | '%' :: rest => '%' :: unquoteChars rest
  | c :: rest => c :: unquoteChars rest

/-- `urllib.unquote` on a string. -/
def unquote (s : String) : String := ⟨unquoteChars s.data⟩

/-- Split at the first '=' (Python `name_value.split('=', 1)`); `none`
when there is no '='. -/
def splitFirstEq (acc : List Char) : List Char → Option (String × String)
  | [] => none
  | '=' :: t => some (⟨acc.reverse⟩, ⟨t⟩)
  | c :: t => splitFirstEq (c :: acc) t

/-- Python `s.split(sep)` for a one-character separator. -/
def splitChar (sep : Char) : List Char → List (List Char)
  | [] => [[]]
  | c :: t =>
    let r := splitChar sep t
    if c == sep then [] :: r
    else
      match r with
      | [] => [[c]]
      | h :: t2 => (c :: h) :: t2

/-- Python 2 `urlparse.parse_qsl(qs)` with default options: split fields on
'&' and ';', drop empty fields, fields without '=' and fields with empty
values, then '+'-to-space and percent-decode names and values. -/
def parse_qsl (qs : String) : List (String × String) :=
  ((splitChar '&' qs.data).flatMap (fun f => splitChar ';' f)).filterMap (fun nv =>
    match nv with
    | [] => none
    | _ =>
      match splitFirstEq [] nv with
      | none => none
      | some (n, v) =>
        if v = "" then none
        else some (unquote (pyReplace n '+' ' '), unquote (pyReplace v '+' ' ')))

/-- One step of `parse_qs` dict building: append the value to the entry of
the key, creating the entry at the end on first occurrence. -/
def qsInsert : List (String × List String) → String → String → List (String × List String)
  | [], k, v => [(k, [v])]
  | (k1, vs) :: t, k, v =>
    if k1 = k then (k1, vs ++ [v]) :: t else (k1, vs) :: qsInsert t k v

/-- Values stored for a key in a parse_qs-style mapping ([] when absent). -/
def qsLookup : List (String × List String) → String → List String
  | [], _ => []
  | (k1, vs) :: t, k => if k1 = k then vs else qsLookup t k

/-- Python 2 `urlparse.parse_qs(qs)`: fold the qsl pairs into a mapping
from key to list of values. -/
def parse_qs (qs : String) : List (String × List String) :=
  (parse_qsl qs).foldl (fun a p => qsInsert a p.1 p.2) []

/-- QGConnector.format_payload: for generations 1/2 a string payload is
lstripped of '?', rstripped of '&' and parsed with `parse_qs`; for the
Portal generations an lxml element is serialized with `tostring`; anything
else passes through unchanged. -/
def format_payload (v : ApiVersion) (data : PyData) : PyData :=
  if v = .num 1 ∨ v = .num 2 then
    match data with
    | .str s => .qdict (parse_qs (pyRstripChar (pyLstripChar s '?') '&'))
    | d => d
  else if v = .am ∨ v = .was then
    match data with
    | .xml raw _ => .str raw
    | d => d
  else data

/-- Stated from the claim's words (C5), for comparison with the source:
strip ONE leading '?' (not all of them), strip trailing '&' characters,
then parse as a query string. -/
def claimC5Strip (s : String) : String :=
  pyRstripChar (match s.data with | '?' :: t => ⟨t⟩ | _ => s) '&'

/-- Claim C5's transcoding rule for a generation-1/2 payload. -/
def claimC5Transcode (data : PyData) : PyData :=
  match data with
  | .str s => .qdict (parse_qs (claimC5Strip s))
  | d => d

/-- QGConnector.preformat_call: remove starting slashes and trailing
question marks. -/
def preformat_call (api_call : String) : String :=
  pyRstripChar (pyLstripChar api_call '/') '?'

/-- QGConnector.format_call, parameterized by the (static, not in src/)
`api_methods_with_trailing_slash` table: strip '/' and '?', for generation
2 append '/' when the last character is not '/' (`api_call[-1]` raises
IndexError on the empty string), then append a further '/' whenever the
string is in the forced-trailing-slash set - unconditionally, with no
check for an existing trailing slash. -/
def format_call (tsl : ApiVersion → List String) (v : ApiVersion) (api_call : String) :
    Except PyErr String :=
  let c := pyRstripChar (pyLstripChar api_call '/') '?'
  if v = .num 2 then
    match c.data.getLast? with
    | none => .error .indexError
    | some ch =>
      let c2 := if ch ≠ '/' then c ++ "/" else c
      .ok (if (tsl v).contains c2 then c2 ++ "/" else c2)
  else
    .ok (if (tsl v).contains c then c ++ "/" else c)

/-- The connector's `rate_limit_remaining` mapping, `defaultdict(int)` in
the source, as an association list in insertion order. -/
abbrev RateState : Type := List (String × Int)

/-- Python dict assignment `d[k] = v`: overwrite in place or append. -/
def setRate : RateState → String → Int → RateState
  | [], k, v => [(k, v)]
  | (k1, v1) :: t, k, v =>
    if k1 = k then (k, v) :: t else (k1, v1) :: setRate t k v

/-- Python dict key lookup on the rate mapping (no default). -/
def rateFind : RateState → String → Option Int
  | [], _ => none
  | (k1, v1) :: t, k => if k1 = k then some v1 else rateFind t k

/-- Reading `rate_limit_remaining[api_call]`: `defaultdict(int)` returns
the stored value, or inserts and returns the default 0 when the key was
never stored - a read of a missing key mutates the mapping. -/
def ddRead (st : RateState) (k : String) : Int × RateState :=
  match rateFind st k with
  | some v => (v, st)
  | none => (0, st ++ [(k, 0)])

/-- Lookup of the `x-ratelimit-remaining` response header (requests keeps
headers case-insensitive). -/
def hdrLookup (hs : List (String × String)) : Option (String × String) :=
  hs.find? (fun p => pyLower p.1 == "x-ratelimit-remaining")

/-- The rate-limit recording step of QGConnector.request:
`self.rate_limit_remaining[api_call] = int(request.headers[...])` inside a
`try` that catches only KeyError (missing header) and TypeError
(unsubscriptable headers).  A present but non-numeric value makes `int()`
raise ValueError, which is not caught. -/
def recordRateLimit (st : RateState) (api_call : String)
    (headers : Option (List (String × String))) : Except PyErr RateState :=
  match headers with
  | none => .ok st
  | some hs =>
    match hdrLookup hs with
    | none => .ok st
    | some p =>
      match pyInt p.2 with
      | some n => .ok (setRate st api_call n)
      | none => .error .valueError

/-- A transport response as the direct-HTTP branch of request sees it. -/
structure HttpResponse where
  status : Int
  headers : Option (List (String × String))
  content : String

/-- `requests.Response.raise_for_status` raises HTTPError for 4xx/5xx. -/
def failingStatus (n : Int) : Bool := 400 ≤ n && n < 600

/-- The tail of QGConnector.request on the direct-HTTP branch: record the
rate-limit header (mutating the state), then `raise_for_status` (modelled
by `remoteRequestError` carrying status and body), else return the body.
The state component is the mapping after the call, raised or not. -/
def finishRequest (st : RateState) (api_call : String) (r : HttpResponse) :
    Except PyErr String × RateState :=
  match recordRateLimit st api_call r.headers with
  | .error e => (.error e, st)
  | .ok st2 =>
    if failingStatus r.status then
      (.error (.remoteRequestError r.status r.content), st2)
    else (.ok r.content, st2)

/-- The QGConnector fields the request pipeline reads: server host, the
two static method registries (their data file is not under src/, so they
are carried as fields), and the library version string interpolated into
the X-Requested-With header. -/
structure QGConnector where
  server : String
  api_methods : ApiMethods
  api_methods_with_trailing_slash : ApiVersion → List String
  versionStr : String

/-- The headers QGConnector.request builds: the client-identification
header always, plus the XML content type for the Portal generations. -/
def baseHeaders (ver : String) (v : ApiVersion) : List (String × String) :=
  [("X-Requested-With", "Parag Baxi QualysAPI (python) v" ++ ver)] ++
    (if v = .am ∨ v = .was then [("Content-type", "text/xml")] else [])

/-- Everything QGConnector.request has assembled by the moment it
dispatches to the transport. -/
structure PreparedRequest where
  httpMethod : String
  url : String
  headers : List (String × String)
  data : Option PyData
deriving DecidableEq

/-- The pre-dispatch pipeline of QGConnector.request: preformat the call,
resolve the generation (a truthy `api_version` argument goes through
format_api_version, otherwise which_api_version on the preformatted
call), build the base URL, build headers, pick the verb (a truthy
`http_method` argument overrides), format the call, append it to the URL,
and transcode the payload.  Any step's exception aborts before dispatch. -/
def prepareRequest (conn : QGConnector) (rawCall : String) (hint : Option String)
    (data : Option PyData) (verbHint : Option String) : Except PyErr PreparedRequest :=
  let call := preformat_call rawCall
  let vr : Except PyErr ApiVersion :=
    match hint with
    | some h => if h = "" then .ok (which_api_version call) else format_api_version h
    | none => .ok (which_api_version call)
  match vr with
  | .error e => .error e
  | .ok v =>
    match url_api_version conn.server v with
    | .error e => .error e
    | .ok url =>
      let headers := baseHeaders conn.versionStr v
      let meth :=
        match verbHint with
        | some hm => if hm = "" then format_http_method conn.api_methods v call data else hm
        | none => format_http_method conn.api_methods v call data
      match format_call conn.api_methods_with_trailing_slash v call with
      | .error e => .error e
      | .ok call2 =>
        .ok ⟨meth, url ++ call2, headers, data.map (format_payload v)⟩

/-- ASCII alphanumeric test (Python 2 `always_safe` core). -/
def isAlnumChar (c : Char) : Bool :=
  pyIsDigitChar c || ('a' ≤ c && c ≤ 'z') || ('A' ≤ c && c ≤ 'Z')

/-- Uppercase hex digit for percent-encoding. -/
def hexDigitU (n : Nat) : Char :=
  if n < 10 then Char.ofNat ('0'.toNat + n) else Char.ofNat ('A'.toNat + n - 10)

/-- `urllib.quote_plus` on one ASCII character: safe characters kept,
space to '+', the rest percent-encoded. -/
def quotePlusChar (c : Char) : List Char :=
  if isAlnumChar c || c == '_' || c == '.' || c == '-' then [c]
  else if c == ' ' then ['+']
  else ['%', hexDigitU (c.toNat / 16), hexDigitU (c.toNat % 16)]

/-- `urllib.quote_plus` on a string. -/
def quotePlus (s : String) : String := ⟨s.data.flatMap quotePlusChar⟩

/-- `urllib.urlencode` on a dict of plain string values. -/
def urlencodePairs (l : List (String × String)) : String :=
  String.intercalate "&" (l.map (fun p => quotePlus p.1 ++ "=" ++ quotePlus p.2))

/-- The subprocess branch's dict mutation before urlencoding: every
list-valued entry is replaced by its FIRST element (`data[i]=data[i][0]`,
an IndexError on an empty list), silently dropping the other values. -/
def curlFlatten : List (String × List String) → Except PyErr (List (String × String))
  | [] => .ok []
  | (k, v :: _) :: t => (curlFlatten t).map (fun r => (k, v) :: r)
  | (_, []) :: _ => .error .indexError

/-- The wire body the direct-HTTP branch produces for a dict of
list-of-values (requests encodes every value of every key). -/
def requestsEncode (d : List (String × List String)) : String :=
  urlencodePairs (d.flatMap (fun p => p.2.map (fun v => (p.1, v))))

/-- The argument vector the subprocess branch of QGConnector.request
assembles: base curl invocation, '-H' header pairs, '-d' with the
flattened urlencoded data when the payload is truthy, the proxy, and the
URL last. -/
def buildCurlCall (auth : String × String) (proxies : Option String) (url : String)
    (headers : List (String × String)) (data : Option PyData) :
    Except PyErr (List String) :=
  let base := ["curl", "-k", "-u", auth.1 ++ ":" ++ auth.2]
  let hargs := headers.flatMap (fun p => ["-H", p.1 ++ ": " ++ p.2])
  let dataArgsE : Except PyErr (List String) :=
    if pyTruthy data then
      match data with
      | some (.qdict l) => (curlFlatten l).map (fun fl => ["-d", urlencodePairs fl])
      | some (.str s) => .ok ["-d", s]
      | some (.xml raw _) => .ok ["-d", raw]
      | none => .ok []
    else .ok []
  dataArgsE.map (fun dargs =>
    base ++ hargs ++ dargs ++
      (match proxies with | some p => ["--proxy", p] | none => []) ++ [url])

/-- What each transport branch of QGConnector.request hands back to the
caller: the direct branch returns `request.content`, the subprocess branch
returns the value of `subprocess.call(curl_call)` - curl's exit status. -/
inductive RequestOutcome where
  | content : String → RequestOutcome
  | curlExitStatus : Int → RequestOutcome
deriving DecidableEq

/-- Return value of the direct-HTTP branch. -/
def directReturn (body : String) : RequestOutcome := .content body

/-- Return value of the subprocess branch. -/
def subprocessReturn (exitCode : Int) : RequestOutcome := .curlExitStatus exitCode

/-- A concrete connector for witnesses (empty registries, nothing in any
endpoint set). -/
def exampleConn : QGConnector :=
  { server := "qualysapi.qualys.com"
    api_methods := ⟨[], [], [], []⟩
    api_methods_with_trailing_slash := fun _ => []
    versionStr := "3.5.0" }

/-- A registry instance for C2's counterexample: the endpoint sits only in
the WAS no-data GET set. -/
def c2Reg : ApiMethods := ⟨[], [], ["was/scan/x"], []⟩

/-- A forced-trailing-slash table for C6's counterexample, with an entry
that itself ends in '/' (nothing in the spec's registry description
forbids that shape). -/
def c6SlashReg : ApiVersion → List String :=
  fun v => if v = .num 1 then ["scan.php/"] else []


/-! ### Helper lemmas -/

/-- Strings with equal character data are equal. -/
theorem strOfDataEq (a b : String) (h : a.data = b.data) : a = b :=
  String.ext h

/-- Character data of an appended string. -/
theorem strDataAppend (a b : String) : (a ++ b).data = a.data ++ b.data := rfl

/-- Appending a slash makes a string end in a slash. -/
theorem pyEndsWith_append_slash (s : String) : pyEndsWith (s ++ "/") "/" = true := by
  have h1 : ("/" : String).data = ['/'] := rfl
  simp [pyEndsWith, strDataAppend, h1, List.reverse_append, listLeads]

/-- Appending a slash yields a double slash exactly when the string
already ended in a slash. -/
theorem pyEndsWith_append_two (s : String) :
    pyEndsWith (s ++ "/") "//" = pyEndsWith s "/" := by
  have h1 : ("//" : String).data = ['/', '/'] := rfl
  have h2 : ("/" : String).data = ['/'] := rfl
  simp [pyEndsWith, strDataAppend, h1, h2, List.reverse_append, listLeads]

/-- Ending in a slash, read off the last character. -/
theorem pyEndsWith_slash_getLast (c : String) (ch : Char)
    (h : c.data.getLast? = some ch) : pyEndsWith c "/" = (('/' : Char) == ch) := by
  have h2 : c.data.reverse.head? = some ch := by rw [List.head?_reverse]; exact h
  have h1 : ("/" : String).data = ['/'] := rfl
  cases hr : c.data.reverse with
  | nil => rw [hr] at h2; cases h2
  | cons a t =>
    rw [hr] at h2
    injection h2 with ha
    simp [pyEndsWith, h1, hr, listLeads, ha]

/-- Bool-level list membership gives Prop-level membership. -/
theorem containsMem {l : List String} {a : String} (h : l.contains a = true) :
    a ∈ l :=
  List.mem_of_elem_eq_true h

/-- `qsInsert` changes the stored values only at the inserted key, where it
appends the new value. -/
theorem qsLookup_qsInsert (d : List (String × List String)) (k0 v0 k : String) :
    qsLookup (qsInsert d k0 v0) k =
      qsLookup d k ++ (if k0 = k then [v0] else []) := by
  induction d with
  | nil =>
    by_cases h : k0 = k <;> simp [qsInsert, qsLookup, h]
  | cons p t ih =>
    obtain ⟨k1, vs⟩ := p
    by_cases h1 : k1 = k0
    · subst h1
      by_cases h2 : k1 = k <;> simp [qsInsert, qsLookup, h2]
    · by_cases h2 : k1 = k
      · subst h2
        have h3 : ¬k0 = k1 := fun he => h1 he.symm
        simp [qsInsert, qsLookup, h1, h3]
      · simp [qsInsert, qsLookup, h1, h2, ih]

/-- Folding qsl pairs into the mapping accumulates, per key, exactly the
values of that key in encounter order. -/
theorem qsLookup_foldl (l : List (String × String)) (d : List (String × List String))
    (k : String) :
    qsLookup (l.foldl (fun a p => qsInsert a p.1 p.2) d) k =
      qsLookup d k ++ l.filterMap (fun p => if p.1 = k then some p.2 else none) := by
  induction l generalizing d with
  | nil => simp
  | cons p t ih =>
    obtain ⟨k0, v0⟩ := p
    rw [List.foldl_cons, ih, qsLookup_qsInsert]
    by_cases h : k0 = k <;> simp [h]

/-- The parse_qs mapping holds, for every key, the values of that key in
the qsl pair list, in encounter order. -/
theorem qsLookup_parse_qs (qs k : String) :
    qsLookup (parse_qs qs) k =
      (parse_qsl qs).filterMap (fun p => if p.1 = k then some p.2 else none) := by
  have h := qsLookup_foldl (parse_qsl qs) [] k
  simpa [parse_qs, qsLookup] using h

/-! ### The claims -/

/-- C7 (amended): for every explicit generation hint string whose
case-folded form is neither empty nor exactly "v", classification
case-folds the hint, strips a leading 'v' when followed by a digit, maps
the synonyms ("asset management", "assets", "tag", "tagging", "tags" to
GenAssetMgmt; "webapp", "web application scanning", "webapp scanning" to
GenWebApp; "pol", "pc" to numeric generation 2), otherwise parses an
integer generation number, and fails with UnrecognizedVersion (modelled by
`PyErr.valueError`) when the remainder is not a digit string - exactly the
claim's rule, `claimC7Classify`.  The excluded hints "" and "v" instead
crash with IndexError in the source's `api_version[0]`/`api_version[1]`
accesses (see the counterexample). -/
theorem c7_hint_classification (h : String)
    (h0 : pyLower h ≠ "") (h1 : pyLower h ≠ "v") :
    format_api_version h = claimC7Classify h := by
  cases hd : (pyLower h).data with
  | nil => exact absurd (strOfDataEq (pyLower h) "" (by simpa using hd)) h0
  | cons c0 rest =>
    cases rest with
    | nil =>
      by_cases hc0 : c0 = 'v'
      · subst hc0
        exact absurd (strOfDataEq (pyLower h) "v" (by simpa using hd)) h1
      · simp [format_api_version, claimC7Classify, claimVstrip, hd, hc0]
    | cons c1 t =>
      by_cases hc0 : c0 = 'v'
      · subst hc0
        by_cases hdig : pyIsDigitChar c1 <;>
          simp [format_api_version, claimC7Classify, claimVstrip, hd, hdig]
      · simp [format_api_version, claimC7Classify, claimVstrip, hd, hc0]

/-- C7 witness: the claim's own examples, routed through the amended
theorem at concrete hints. -/
theorem c7_hint_classification_w :
    (pyLower "V2" ≠ "" ∧ pyLower "V2" ≠ "v" ∧
      format_api_version "V2" = claimC7Classify "V2" ∧
      format_api_version "V2" = .ok (.num 2)) ∧
    (format_api_version "2" = claimC7Classify "2" ∧
      format_api_version "2" = .ok (.num 2)) ∧
    (format_api_version "pc" = claimC7Classify "pc" ∧
      format_api_version "pc" = .ok (.num 2)) ∧
    (format_api_version "assets" = claimC7Classify "assets" ∧
      format_api_version "assets" = .ok .am) ∧
    (format_api_version "tagging" = claimC7Classify "tagging" ∧
      format_api_version "tagging" = .ok .am) :=
  ⟨⟨by decide, by decide, c7_hint_classification "V2" (by decide) (by decide), by decide⟩,
   ⟨c7_hint_classification "2" (by decide) (by decide), by decide⟩,
   ⟨c7_hint_classification "pc" (by decide) (by decide), by decide⟩,
   ⟨c7_hint_classification "assets" (by decide) (by decide), by decide⟩,
   ⟨c7_hint_classification "tagging" (by decide) (by decide), by decide⟩⟩

/-- C7 counterexample: the hint "v" is not a digit string after the
substitutions, so the claim says it fails with UnrecognizedVersion; the
source instead raises IndexError in `api_version[1].isdigit()` (and the
empty hint in `api_version[0]`), so the claim as stated is false. -/
theorem c7_bare_v_hint_cex :
    format_api_version "v" = .error .indexError ∧
    claimC7Classify "v" = .error .valueError ∧
    format_api_version "v" ≠ claimC7Classify "v" ∧
    format_api_version "" = .error .indexError := by
  refine ⟨by decide, by decide, ?_, by decide⟩
  intro he
  have : (Except.error .indexError : Except PyErr ApiVersion) = .error .valueError := by
    calc (Except.error .indexError : Except PyErr ApiVersion)
        = format_api_version "v" := by decide
      _ = claimC7Classify "v" := he
      _ = .error .valueError := by decide
  cases this

/-- C2 (amended): verb selection for every registry, call and payload:
GenV2 always POST; GenV1 POST exactly on the GenV1 POST set; GenAssetMgmt
GET exactly on its GET set; GenWebApp GET on its GET set, else POST
whenever the payload is TRUTHY (non-empty), and otherwise - payload absent
OR supplied but empty, since the source tests `if not data:` - GET exactly
on the no-data GET set.  The claim's stronger reading, that a
supplied-but-empty payload always forces POST, is refuted by the
counterexample. -/
theorem c2_verb_selection (m : ApiMethods) (call : String) (data : Option PyData) :
    format_http_method m (.num 2) call data = "post" ∧
    format_http_method m (.num 1) call data =
      (if m.v1post.contains call then "post" else "get") ∧
    format_http_method m .was call data =
      (if m.wasGet.contains call then "get"
       else if pyTruthy data then "post"
       else if m.wasNoDataGet.contains call then "get" else "post") ∧
    format_http_method m .am call data =
      (if m.amGet.contains call then "get" else "post") := by
  refine ⟨by simp [format_http_method], by simp [format_http_method], ?_, by simp [format_http_method]⟩
  cases hT : pyTruthy data <;>
    by_cases hG : m.wasGet.contains call <;>
      simp [format_http_method, hT, hG]

/-- C2 counterexample: a supplied-but-empty payload (the empty string) is
falsy, so a WAS endpoint that sits in the no-data GET set is requested
with GET - the claim's "for every call where a payload argument is
supplied ... always POST" is false. -/
theorem c2_empty_payload_cex :
    format_http_method c2Reg .was "was/scan/x" (some (.str "")) = "get" ∧
    format_http_method c2Reg .was "was/scan/x" (some (.str "")) ≠ "post" := by
  refine ⟨by decide, ?_⟩
  intro he
  have : ("get" : String) = "post" := by
    calc ("get" : String) = format_http_method c2Reg .was "was/scan/x" (some (.str "")) := by decide
      _ = "post" := he
  simp at this

/-- C3 (amended): the rate-limit recording step is a no-op without error
when the headers object is absent or the rate-limit header is missing;
a present header with a numeric value is stored under the endpoint,
overwriting any prior value; but a present header whose value is NOT
numeric raises an uncaught ValueError (only KeyError and TypeError are
caught), interrupting the request flow - refuting the claim's "non-numeric
value is a no-op". -/
theorem c3_rate_limit_recording (st : RateState) (call : String) :
    recordRateLimit st call none = .ok st ∧
    (∀ hs, hdrLookup hs = none → recordRateLimit st call (some hs) = .ok st) ∧
    (∀ hs p n, hdrLookup hs = some p → pyInt p.2 = some n →
      recordRateLimit st call (some hs) = .ok (setRate st call n)) ∧
    (∀ hs p, hdrLookup hs = some p → pyInt p.2 = none →
      recordRateLimit st call (some hs) = .error .valueError) := by
  refine ⟨rfl, ?_, ?_, ?_⟩ <;> intros <;> simp [recordRateLimit, *]

/-- C3 witness: the claim's example - a header value "42" for endpoint
"am/tags" stores 42, overwriting the prior 5; a response without the
header leaves the prior value untouched. -/
theorem c3_rate_limit_recording_w :
    hdrLookup [("x-ratelimit-remaining", "42")] = some ("x-ratelimit-remaining", "42") ∧
    pyInt "42" = some 42 ∧
    recordRateLimit [("am/tags", 5)] "am/tags" (some [("x-ratelimit-remaining", "42")]) =
      .ok (setRate [("am/tags", 5)] "am/tags" 42) ∧
    setRate [("am/tags", 5)] "am/tags" 42 = [("am/tags", 42)] ∧
    hdrLookup [] = none ∧
    recordRateLimit [("am/tags", 5)] "am/tags" (some []) = .ok [("am/tags", 5)] :=
  ⟨by decide, by decide,
   (c3_rate_limit_recording [("am/tags", 5)] "am/tags").2.2.1
     [("x-ratelimit-remaining", "42")] ("x-ratelimit-remaining", "42") 42
     (by decide) (by decide),
   by decide, by decide,
   (c3_rate_limit_recording [("am/tags", 5)] "am/tags").2.1 [] (by decide)⟩

/-- C3 counterexample: a present but non-numeric rate-limit header value
makes the recording step raise ValueError instead of being a no-op. -/
theorem c3_nonnumeric_header_cex :
    recordRateLimit [("am/tags", 5)] "am/tags"
        (some [("x-ratelimit-remaining", "unlimited")]) = .error .valueError ∧
    recordRateLimit [("am/tags", 5)] "am/tags"
        (some [("x-ratelimit-remaining", "unlimited")]) ≠ .ok [("am/tags", 5)] := by
  refine ⟨by decide, ?_⟩
  intro he
  have : (Except.error .valueError : Except PyErr RateState) = .ok [("am/tags", 5)] := by
    calc (Except.error .valueError : Except PyErr RateState)
        = recordRateLimit [("am/tags", 5)] "am/tags"
            (some [("x-ratelimit-remaining", "unlimited")]) := by decide
      _ = .ok [("am/tags", 5)] := he
  cases this

/-- C4 (amended): on a failing HTTP status, provided the rate-limit
header - when present - carries a numeric value, request raises
RemoteRequestError carrying the status and body and returns no body, and
the Rate Limit State update is governed by header presence, not status:
a present numeric header is recorded before the error is raised, an
absent header (or absent headers object) leaves the state unchanged.
(A present non-numeric header instead raises ValueError before the status
check - the counterexample.) -/
theorem c4_failing_status (st : RateState) (call : String) (r : HttpResponse)
    (hfail : failingStatus r.status = true) :
    (r.headers = none →
      finishRequest st call r = (.error (.remoteRequestError r.status r.content), st)) ∧
    (∀ hs, r.headers = some hs → hdrLookup hs = none →
      finishRequest st call r = (.error (.remoteRequestError r.status r.content), st)) ∧
    (∀ hs p n, r.headers = some hs → hdrLookup hs = some p → pyInt p.2 = some n →
      finishRequest st call r =
        (.error (.remoteRequestError r.status r.content), setRate st call n)) := by
  refine ⟨?_, ?_, ?_⟩ <;> intros <;> simp [finishRequest, recordRateLimit, hfail, *]

/-- C4 witness: a 404 with a numeric rate-limit header records 7 and then
raises; a 503 without headers raises with the state untouched. -/
theorem c4_failing_status_w :
    failingStatus 404 = true ∧
    finishRequest [] "scan" ⟨404, some [("x-ratelimit-remaining", "7")], "not found"⟩ =
      (.error (.remoteRequestError 404 "not found"), setRate [] "scan" 7) ∧
    setRate [] "scan" 7 = [("scan", 7)] ∧
    failingStatus 503 = true ∧
    finishRequest [("scan", 9)] "scan" ⟨503, none, "down"⟩ =
      (.error (.remoteRequestError 503 "down"), [("scan", 9)]) :=
  ⟨by decide,
   (c4_failing_status [] "scan" ⟨404, some [("x-ratelimit-remaining", "7")], "not found"⟩
       (by decide)).2.2 [("x-ratelimit-remaining", "7")] ("x-ratelimit-remaining", "7") 7
     rfl (by decide) (by decide),
   by decide, by decide,
   (c4_failing_status [("scan", 9)] "scan" ⟨503, none, "down"⟩ (by decide)).1 rfl⟩

/-- C4 counterexample: a failing response whose rate-limit header is
present but non-numeric raises ValueError, not RemoteRequestError, and
records nothing - so the claim's unconditional "raises RemoteRequestError
/ present header is still recorded" is false as stated. -/
theorem c4_nonnumeric_on_error_cex :
    finishRequest [] "c" ⟨500, some [("x-ratelimit-remaining", "soon")], "b"⟩ =
      (.error .valueError, []) ∧
    PyErr.valueError ≠ PyErr.remoteRequestError 500 "b" := by
  refine ⟨by decide, ?_⟩
  intro he
  cases he

/-- C5 (amended): for generations 1 and 2 a string payload is stripped of
ALL leading '?' characters (not exactly one, as the claim says - see the
counterexample) and all trailing '&' characters, then parsed as a query
string into a mapping from key to list of values in which duplicate keys
accumulate their values in encounter order (the third conjunct); a payload
that is already a structured mapping passes through unchanged. -/
theorem c5_payload_transcoding (v : ApiVersion) (hv : v = .num 1 ∨ v = .num 2)
    (s : String) (d : List (String × List String)) :
    format_payload v (.str s) =
      .qdict (parse_qs (pyRstripChar (pyLstripChar s '?') '&')) ∧
    format_payload v (.qdict d) = .qdict d ∧
    (∀ k, qsLookup (parse_qs (pyRstripChar (pyLstripChar s '?') '&')) k =
      (parse_qsl (pyRstripChar (pyLstripChar s '?') '&')).filterMap
        (fun p => if p.1 = k then some p.2 else none)) := by
  rcases hv with rfl | rfl <;>
    exact ⟨by simp [format_payload], by simp [format_payload],
      fun k => qsLookup_parse_qs (pyRstripChar (pyLstripChar s '?') '&') k⟩

/-- C5 witness: the claim's example - "?ids=1&ids=2&" for GenV1 becomes
the mapping with "ids" bound to ["1", "2"], duplicate values accumulated
in order. -/
theorem c5_payload_transcoding_w :
    format_payload (.num 1) (.str "?ids=1&ids=2&") =
      .qdict (parse_qs (pyRstripChar (pyLstripChar "?ids=1&ids=2&" '?') '&')) ∧
    parse_qs (pyRstripChar (pyLstripChar "?ids=1&ids=2&" '?') '&') = [("ids", ["1", "2"])] ∧
    format_payload (.num 2) (.qdict [("ids", ["1", "2"])]) = .qdict [("ids", ["1", "2"])] :=
  ⟨(c5_payload_transcoding (.num 1) (Or.inl rfl) "?ids=1&ids=2&" []).1,
   by decide,
   (c5_payload_transcoding (.num 2) (Or.inr rfl) "" [("ids", ["1", "2"])]).2.1⟩

/-- C5 counterexample: on "??ids=1" the source (`lstrip('?')`) strips both
leading question marks and yields the key "ids", while the claim's "strips
one leading '?'" leaves one and yields the key "?ids" - the claim's
stripping rule does not match the code. -/
theorem c5_double_question_cex :
    format_payload (.num 1) (.str "??ids=1") = .qdict [("ids", ["1"])] ∧
    claimC5Transcode (.str "??ids=1") = .qdict [("?ids", ["1"])] ∧
    format_payload (.num 1) (.str "??ids=1") ≠ claimC5Transcode (.str "??ids=1") := by
  refine ⟨by decide, by decide, ?_⟩
  intro he
  have : (PyData.qdict [("ids", ["1"])]) = PyData.qdict [("?ids", ["1"])] := by
    calc (PyData.qdict [("ids", ["1"])])
        = format_payload (.num 1) (.str "??ids=1") := by decide
      _ = claimC5Transcode (.str "??ids=1") := he
      _ = .qdict [("?ids", ["1"])] := by decide
  simp at this

/-- C9 (amended): the rate-limit mapping is a `defaultdict(int)`: reading
an endpoint that was never recorded does NOT report absence - it returns
the integer default 0 and inserts the entry, mutating the Rate Limit
State; only a read of a present key leaves the state unchanged and
returns the stored value.  Entries are thus created lazily on first
recorded response OR on first read of a missing key. -/
theorem c9_defaultdict_read (st : RateState) (k : String) :
    (rateFind st k = none → ddRead st k = (0, st ++ [(k, 0)])) ∧
    (∀ v, rateFind st k = some v → ddRead st k = (v, st)) := by
  refine ⟨?_, ?_⟩ <;> intros <;> simp [ddRead, *]

/-- C9 witness: reading the never-recorded "am/tags" from the fresh
mapping returns 0 and inserts the entry; reading a present key returns
its value and leaves the state alone. -/
theorem c9_defaultdict_read_w :
    rateFind [] "am/tags" = none ∧
    ddRead [] "am/tags" = (0, [] ++ [("am/tags", 0)]) ∧
    ([] ++ [("am/tags", 0)] : RateState) = [("am/tags", 0)] ∧
    rateFind [("scan", 3)] "scan" = some 3 ∧
    ddRead [("scan", 3)] "scan" = (3, [("scan", 3)]) :=
  ⟨by decide,
   (c9_defaultdict_read [] "am/tags").1 (by decide),
   by decide, by decide,
   (c9_defaultdict_read [("scan", 3)] "scan").2 3 (by decide)⟩

/-- C9 counterexample: the read accessor on a never-recorded endpoint
returns the integer 0 (not an absence marker) and mutates the mapping by
inserting the entry - both halves of the claim fail. -/
theorem c9_missing_key_mutation_cex :
    ddRead [] "am/tags" = (0, [("am/tags", 0)]) ∧
    (ddRead [] "am/tags").2 ≠ ([] : RateState) := by
  refine ⟨by decide, ?_⟩
  intro he
  have : ([("am/tags", 0)] : RateState) = [] := by
    calc ([("am/tags", 0)] : RateState) = (ddRead [] "am/tags").2 := by decide
      _ = [] := he
  cases this

/-- C1 (amended): with no explicit hint, classification checks the
patterns in order - a call ending in ".php" is GenV1 (even when it also
contains "/am/" or "/was/"); otherwise a call starting with "api/2.0/" is
GenV2; otherwise "/am/" gives GenAssetMgmt; otherwise "/was/" gives
GenWebApp; any other call does NOT resolve: which_api_version returns the
failure marker `False`, and the orchestrator fails before dispatching any
request - but it does so via the URL builder's UnknownGeneration error
("Unknown QualysGuard API Version Number (False)"), the SAME error used
for an internal unknown tag, not a distinct UnclassifiableEndpoint error
(see the counterexample). -/
theorem c1_classification_order (call : String) :
    (pyEndsWith call ".php" = true → which_api_version call = .num 1) ∧
    (pyEndsWith call ".php" = false → pyStartsWith call "api/2.0/" = true →
      which_api_version call = .num 2) ∧
    (pyEndsWith call ".php" = false → pyStartsWith call "api/2.0/" = false →
      strContains call "/am/" = true → which_api_version call = .am) ∧
    (pyEndsWith call ".php" = false → pyStartsWith call "api/2.0/" = false →
      strContains call "/am/" = false → strContains call "/was/" = true →
      which_api_version call = .was) ∧
    (pyEndsWith call ".php" = false → pyStartsWith call "api/2.0/" = false →
      strContains call "/am/" = false → strContains call "/was/" = false →
      which_api_version call = .boolFalse ∧
      ∀ (conn : QGConnector) (raw : String) (data : Option PyData) (vh : Option String),
        preformat_call raw = call →
        prepareRequest conn raw none data vh =
          .error (.unknownGeneration "Unknown QualysGuard API Version Number (False)")) := by
  refine ⟨?_, ?_, ?_, ?_, ?_⟩
  · intro h1; simp [which_api_version, h1]
  · intro h1 h2; simp [which_api_version, h1, h2]
  · intro h1 h2 h3; simp [which_api_version, h1, h2, h3]
  · intro h1 h2 h3 h4; simp [which_api_version, h1, h2, h3, h4]
  · intro h1 h2 h3 h4
    have hw : which_api_version call = .boolFalse := by
      simp [which_api_version, h1, h2, h3, h4]
    refine ⟨hw, ?_⟩
    intro conn raw data vh hpre
    simp only [prepareRequest, hpre, hw, url_api_version, pyReprVersion]
    rfl

/-- C1 witness: the pattern order at concrete calls - ".php" wins even
over a "/am/" substring; each later pattern fires only when the earlier
ones miss; an unmatched call yields the failure marker and the
UnknownGeneration error before dispatch. -/
theorem c1_classification_order_w :
    (pyEndsWith "host/am/scan.php" ".php" = true ∧
      which_api_version "host/am/scan.php" = .num 1) ∧
    (which_api_version "api/2.0/fo/scan" = .num 2) ∧
    (which_api_version "portal/am/tag" = .am) ∧
    (which_api_version "portal/was/x" = .was) ∧
    (which_api_version "foo/bar" = .boolFalse ∧
      prepareRequest exampleConn "foo/bar" none none none =
        .error (.unknownGeneration "Unknown QualysGuard API Version Number (False)")) :=
  ⟨⟨by decide, (c1_classification_order "host/am/scan.php").1 (by decide)⟩,
   (c1_classification_order "api/2.0/fo/scan").2.1 (by decide) (by decide),
   (c1_classification_order "portal/am/tag").2.2.1 (by decide) (by decide) (by decide),
   (c1_classification_order "portal/was/x").2.2.2.1 (by decide) (by decide) (by decide) (by decide),
   ⟨((c1_classification_order "foo/bar").2.2.2.2 (by decide) (by decide) (by decide) (by decide)).1,
    ((c1_classification_order "foo/bar").2.2.2.2 (by decide) (by decide) (by decide) (by decide)).2
      exampleConn "foo/bar" none none (by decide)⟩⟩

/-- C1 counterexample: the unmatched call "fo/scan/list" with no hint is
surfaced through exactly the URL builder's UnknownGeneration exception -
the same exception raised for an internal unknown tag such as numeric
generation 3 - so the claim's "a distinct fatal error, not the internal
UnknownGeneration error" is false: the source has no separate
UnclassifiableEndpoint failure. -/
theorem c1_unknown_generation_cex :
    which_api_version "fo/scan/list" = .boolFalse ∧
    prepareRequest exampleConn "fo/scan/list" none none none =
      .error (.unknownGeneration "Unknown QualysGuard API Version Number (False)") ∧
    url_api_version "qualysapi.qualys.com" (.num 3) =
      .error (.unknownGeneration "Unknown QualysGuard API Version Number (3)") := by
  refine ⟨by decide, by decide, by decide⟩

/-- C10 (confirmed): for every raw call whose preformatted form is empty
(e.g. "/", "?", ""), a request with an explicit hint resolving to GenV2
fails inside call normalization: `format_call` evaluates `api_call[-1]`
on the empty string and raises IndexError - an error outside the spec's
taxonomy - before any transport dispatch; with no hint the same call
instead fails at classification/URL building with the UnknownGeneration
error. -/
theorem c10_empty_call (conn : QGConnector) (raw : String) (hint : String)
    (data : Option PyData) (vh : Option String)
    (hstrip : preformat_call raw = "")
    (hhint : format_api_version hint = .ok (.num 2)) :
    prepareRequest conn raw (some hint) data vh = .error .indexError ∧
    prepareRequest conn raw none data vh =
      .error (.unknownGeneration "Unknown QualysGuard API Version Number (False)") := by
  have hne : hint ≠ "" := by
    intro he
    rw [he] at hhint
    exact absurd hhint (by decide)
  constructor
  · simp only [prepareRequest, hstrip, if_neg hne, hhint, url_api_version]
    simp [format_call, pyLstripChar, pyRstripChar]
  · have hw : which_api_version "" = .boolFalse := by decide
    simp only [prepareRequest, hstrip, hw, url_api_version, pyReprVersion]
    rfl

/-- C10 witness: the raw call "/" preformats to the empty string; with
hint "2" the request dies with IndexError in format_call, with no hint it
dies with the UnknownGeneration error - both before dispatch. -/
theorem c10_empty_call_w :
    preformat_call "/" = "" ∧
    format_api_version "2" = .ok (.num 2) ∧
    prepareRequest exampleConn "/" (some "2") none none = .error .indexError ∧
    prepareRequest exampleConn "/" none none none =
      .error (.unknownGeneration "Unknown QualysGuard API Version Number (False)") :=
  ⟨by decide, by decide,
   (c10_empty_call exampleConn "/" "2" none none (by decide) (by decide)).1,
   (c10_empty_call exampleConn "/" "2" none none (by decide) (by decide)).2⟩

/-- C6 (amended): for every tag, raw call and forced-trailing-slash table
in which no entry ends in '/', provided the stripped call is nonempty when
the tag is GenV2 (the empty residue instead raises IndexError - claim
C10) and does not itself already end in "//": normalization succeeds, the
result never ends in "//", and under GenV2 it always ends in '/'.  The
stripping (all leading '/', all trailing '?') and the GenV2 append are as
the claim says; but the forced-set append of the source is UNCONDITIONAL,
not idempotent - with an entry that ends in '/' the result does end in
"//" (see the counterexample), which is why the slash-free-entries
hypothesis is needed. -/
theorem c6_call_normalization (tsl : ApiVersion → List String) (v : ApiVersion)
    (call : String)
    (hset : ∀ s ∈ tsl v, pyEndsWith s "/" = false)
    (hv2 : v = .num 2 → pyRstripChar (pyLstripChar call '/') '?' ≠ "")
    (hnn : pyEndsWith (pyRstripChar (pyLstripChar call '/') '?') "//" = false) :
    ∃ r, format_call tsl v call = .ok r ∧ pyEndsWith r "//" = false ∧
      (v = .num 2 → pyEndsWith r "/" = true) := by
  by_cases hv : v = ApiVersion.num 2
  · subst hv
    have hcne : pyRstripChar (pyLstripChar call '/') '?' ≠ "" := hv2 rfl
    cases hl : (pyRstripChar (pyLstripChar call '/') '?').data.getLast? with
    | none =>
      exact absurd
        (strOfDataEq (pyRstripChar (pyLstripChar call '/') '?') ""
          (by simpa using List.getLast?_eq_none_iff.mp hl)) hcne
    | some ch =>
      by_cases hch : ch = '/'
      · subst hch
        have hce : pyEndsWith (pyRstripChar (pyLstripChar call '/') '?') "/" = true := by
          rw [pyEndsWith_slash_getLast _ _ hl]; simp
        refine ⟨pyRstripChar (pyLstripChar call '/') '?', ?_, hnn, fun _ => hce⟩
        simp only [format_call]
        simp [hl]
        intro hmem
        exact absurd (hset _ hmem) (by simp [hce])
      · have hnotend : pyEndsWith (pyRstripChar (pyLstripChar call '/') '?') "/" = false := by
          rw [pyEndsWith_slash_getLast _ _ hl]
          exact beq_eq_false_iff_ne.mpr (fun he => hch he.symm)
        have hslash :
            pyEndsWith (pyRstripChar (pyLstripChar call '/') '?' ++ "/") "/" = true :=
          pyEndsWith_append_slash _
        refine ⟨pyRstripChar (pyLstripChar call '/') '?' ++ "/", ?_, ?_, fun _ => hslash⟩
        · simp only [format_call]
          simp [hl, hch]
          intro hmem
          exact absurd (hset _ hmem) (by simp [hslash])
        · rw [pyEndsWith_append_two]
          exact hnotend
  · by_cases hcon : (tsl v).contains (pyRstripChar (pyLstripChar call '/') '?') = true
    · have hne := hset _ (containsMem hcon)
      refine ⟨pyRstripChar (pyLstripChar call '/') '?' ++ "/", ?_, ?_,
        fun h2 => absurd h2 hv⟩
      · simp only [format_call]
        simp [hv]
        intro hnot
        exact absurd (containsMem hcon) hnot
      · rw [pyEndsWith_append_two]
        exact hne
    · refine ⟨pyRstripChar (pyLstripChar call '/') '?', ?_, hnn, fun h2 => absurd h2 hv⟩
      simp only [format_call]
      simp [hv]
      intro hmem
      exact absurd (List.elem_eq_true_of_mem hmem) hcon

/-- C6 witness: the claim's two GenV2 examples, with no forced-slash
entries present: "api/2.0/fo/asset" and "/api/2.0/fo/asset/" both
normalize to a single-slash-terminated result. -/
theorem c6_call_normalization_w :
    (∃ r, format_call (fun _ => []) (.num 2) "api/2.0/fo/asset" = .ok r ∧
      pyEndsWith r "//" = false ∧ (ApiVersion.num 2 = .num 2 → pyEndsWith r "/" = true)) ∧
    (∃ r, format_call (fun _ => []) (.num 2) "/api/2.0/fo/asset/" = .ok r ∧
      pyEndsWith r "//" = false ∧ (ApiVersion.num 2 = .num 2 → pyEndsWith r "/" = true)) ∧
    format_call (fun _ => []) (.num 2) "api/2.0/fo/asset" = .ok "api/2.0/fo/asset/" ∧
    format_call (fun _ => []) (.num 2) "/api/2.0/fo/asset/" = .ok "api/2.0/fo/asset/" :=
  ⟨c6_call_normalization (fun _ => []) (.num 2) "api/2.0/fo/asset"
     (by simp) (fun _ => by decide) (by decide),
   c6_call_normalization (fun _ => []) (.num 2) "/api/2.0/fo/asset/"
     (by simp) (fun _ => by decide) (by decide),
   by decide, by decide⟩

/-- C6 counterexample: the forced-trailing-slash append is not
idempotent - with a table entry that already ends in '/', the matching
call gains a second slash and the result ends in "//", refuting the
claim's "appended idempotently - the final result never ends in
double-slash". -/
theorem c6_double_slash_cex :
    format_call c6SlashReg (.num 1) "scan.php/" = .ok "scan.php//" ∧
    pyEndsWith "scan.php//" "//" = true := by
  refine ⟨by decide, by decide⟩

/-- C8: the two transport paths do NOT assemble equivalent payloads, and
do not both yield the response body.  For the payload with "ids" bound to
["1", "2"], the subprocess branch keeps only the FIRST value of each list
(`data[i] = data[i][0]`) and sends the body "ids=1", while the
direct-HTTP branch encodes every value and sends "ids=1&ids=2"; and the
subprocess branch returns the exit status of `subprocess.call`, never the
response body that the direct branch returns (the docstring of `request`
promises the API response). -/
theorem c8_subprocess_divergence :
    buildCurlCall ("user", "pass") none "https://h/api/2.0/fo/asset/" []
        (some (.qdict [("ids", ["1", "2"])])) =
      .ok ["curl", "-k", "-u", "user:pass", "-d", "ids=1", "https://h/api/2.0/fo/asset/"] ∧
    requestsEncode [("ids", ["1", "2"])] = "ids=1&ids=2" ∧
    ("ids=1" : String) ≠ "ids=1&ids=2" ∧
    (∀ (code : Int) (body : String), subprocessReturn code ≠ directReturn body) := by
  refine ⟨by decide, by decide, by decide, ?_⟩
  intro code body he
  cases he
